import Mathlib

/-! # mythird_pairs.cc: the scenario script and the event scheduler it drives

Part I embeds `main` of `src/mythird_pairs.cc`: the script is a straight-line
sequence of calls into ns-3 helper objects around one `while` loop.  The
embedding keeps the script's own state (the two counters, the containers it
builds, the address helper) and records every call that has an effect outside
the script as an `Effect`, in program order.  Attribute settings on helper
objects only configure the helper and are not recorded.

Part II is the discrete-event scheduler that `Simulator::Stop/Run/Destroy` are
called against.  Its code is not part of `src/`; it is modelled from the
specification.
-/

namespace Mythird

/-! ## Part I: the script -/

/-- Modulus of `uint32_t`, the type of `nCsma` and `nWifi`. -/
def UINT32 : Nat := 2 ^ 32

/-- Dotted-quad IPv4 address `a.b.c.d` as a 32-bit number. -/
def ipv4 (a b c d : Nat) : Nat := ((a * 256 + b) * 256 + c) * 256 + d

/-- The four kinds of net device the script installs. -/
inductive DeviceKind where
  | pointToPoint
  | csma
  | wifiSta
  | wifiAp
  deriving DecidableEq, Repr

/-- The two mobility models the script installs. -/
inductive MobilityModel where
  | randomWalk2d
  | constantPosition
  deriving DecidableEq, Repr

/-- Calls of the script that act outside of it, with their evaluated arguments.
`loopTest` records one evaluation of the loop condition of the pairing loop
together with the values of both counters at that moment. -/
inductive Effect where
  | cout (line : String)
  | logComponentEnable (component : String)
  | createNodes (first count : Nat)
  | installDevices (kind : DeviceKind) (nodes : List Nat)
  | installMobility (model : MobilityModel) (nodes : List Nat)
  | installStack (nodes : List Nat)
  | setBase (network mask : Nat)
  | assign (network address : Nat)
  | loopTest (nCsma nWifi : Nat)
  | echoServerInstall (index node : Nat)
  | echoClientRemote (index address port : Nat)
  | echoClientInstall (index node : Nat)
  | appStart (seconds : Nat)
  | appStop (seconds : Nat)
  | populateRoutingTables
  | simulatorStop (seconds : Nat)
  | enablePcap (file : String)
  | animationInterface (file : String)
  | setConstantPosition (node x y : Nat)
  | simulatorRun
  | simulatorDestroy
  deriving DecidableEq, Repr

/-- State outside the script: the global node list (its size is the id of the
next node) and the effects performed so far. -/
structure World where
  nodeCount : Nat
  trace : List Effect
  deriving DecidableEq, Repr

/-- A script fragment: runs in a world, and either yields a value or faults
(`none`): an out-of-range container access or an aborting library check.  The
world reached is kept in both cases. -/
def Script (α : Type) : Type := World → Option α × World

/-- Sequencing of script fragments; a fault ends the script. -/
def Script.bind {α β : Type} (x : Script α) (f : α → Script β) : Script β :=
  fun w =>
    match x w with
    | (some a, w1) => f a w1
    | (none, w1) => (none, w1)

instance : Monad Script where
  pure a := fun w => (some a, w)
  bind := Script.bind

/-- Perform one effect. -/
def emit (e : Effect) : Script Unit :=
  fun w => (some (), { w with trace := w.trace ++ [e] })

/-- Leave defined behaviour. -/
def fault {α : Type} : Script α := fun w => (none, w)

/-- A `NodeContainer`: the ids of its nodes, in insertion order. -/
abbrev NodeContainer := List Nat

/-- A `NetDeviceContainer`: for each device the id of its node. -/
abbrev NetDeviceContainer := List Nat

/-- An `Ipv4InterfaceContainer`: the address of each interface. -/
abbrev Ipv4InterfaceContainer := List Nat

/-- The library call `NodeContainer::Create(n)`: appends `n` fresh nodes, whose
ids continue the global node list. -/
def NodeContainer.Create (xs : NodeContainer) (n : Nat) : Script NodeContainer :=
  fun w =>
    (some (xs ++ List.range' w.nodeCount n),
      { nodeCount := w.nodeCount + n, trace := w.trace ++ [Effect.createNodes w.nodeCount n] })

/-- The library call `NodeContainer::Get(i)`: element `i` of the container; the
library indexes the underlying vector, which is defined only for `i < GetN()`. -/
def NodeContainer.Get (xs : NodeContainer) (i : Nat) : Script Nat :=
  match xs[i]? with
  | some node => pure node
  | none => fault

/-- The library call `NetDeviceContainer::Get(i)`, as for nodes. -/
def NetDeviceContainer.Get (xs : NetDeviceContainer) (i : Nat) : Script Nat :=
  match xs[i]? with
  | some dev => pure dev
  | none => fault

/-- The library call `Ipv4InterfaceContainer::GetAddress(i)`, as for nodes. -/
def Ipv4InterfaceContainer.GetAddress (xs : Ipv4InterfaceContainer) (i : Nat) : Script Nat :=
  match xs[i]? with
  | some addr => pure addr
  | none => fault

/-- A helper's `Install(nodes)`: one device per node. -/
def installDevices (kind : DeviceKind) (nodes : NodeContainer) : Script NetDeviceContainer := do
  emit (Effect.installDevices kind nodes)
  pure nodes

/-- State of an `Ipv4AddressHelper`: network number (shifted right by the
number of host bits), mask, next host number, number of host bits and the
largest host number that may be handed out. -/
structure Ipv4AddressHelper where
  network : Nat
  mask : Nat
  address : Nat
  shift : Nat
  max : Nat
  deriving DecidableEq, Repr

/-- The library function `Ipv4AddressHelper::NumAddressBits`: position of the
lowest set bit of the mask, searched over `bits` positions. -/
def NumAddressBits : Nat → Nat → Nat
  | 0, _ => 0
  | bits + 1, maskbits => if maskbits % 2 = 1 then 0 else NumAddressBits bits (maskbits / 2) + 1

/-- The library call `Ipv4AddressHelper::SetBase(network, mask)` with the
default base `0.0.0.1`: host number zero (the network) and all-ones
(broadcast) are reserved. -/
def Ipv4AddressHelper.SetBase (network mask : Nat) : Script Ipv4AddressHelper := do
  emit (Effect.setBase network mask)
  let shift := NumAddressBits 32 mask
  pure { network := network / 2 ^ shift, mask := mask, address := 1, shift := shift,
         max := 2 ^ shift - 2 }

/-- The library call `Ipv4AddressHelper::NewAddress`: aborts on address
overflow, else hands out the next address of the subnet. -/
def Ipv4AddressHelper.NewAddress (h : Ipv4AddressHelper) : Script (Nat × Ipv4AddressHelper) :=
  if h.address ≤ h.max then do
    let addr := (h.network * 2 ^ h.shift) ||| h.address
    emit (Effect.assign (h.network * 2 ^ h.shift) addr)
    pure (addr, { h with address := h.address + 1 })
  else fault

/-- The library call `Ipv4AddressHelper::Assign(devices)`: a new address for
each device, in container order. -/
def Ipv4AddressHelper.Assign (h : Ipv4AddressHelper) :
    NetDeviceContainer → Script (Ipv4InterfaceContainer × Ipv4AddressHelper)
  | [] => pure ([], h)
  | _ :: rest => do
    let (addr, h1) ← h.NewAddress
    let (addrs, h2) ← Ipv4AddressHelper.Assign h1 rest
    pure (addr :: addrs, h2)

/-- The value of a `uint32_t` after `x--`. -/
def decr32 (x : Nat) : Nat := (x + UINT32 - 1) % UINT32

/-- The pairing loop of `main` (lines 164-177), by recursion on `nCsma`, which
every iteration decrements by one; `nWifi` is the second counter.  Returns the
final values of both counters. -/
def pairingLoop (csmaNodes wifiStaNodes : NodeContainer) (csmaInterfaces : Ipv4InterfaceContainer)
    (port : Nat) : Nat → Nat → Script (Nat × Nat)
  | 0, nWifi => do
    emit (Effect.loopTest 0 nWifi)
    pure (0, nWifi)
  | k + 1, nWifi => do
    emit (Effect.loopTest (k + 1) nWifi)
    let serverNode ← NodeContainer.Get csmaNodes (k + 1)
    emit (Effect.echoServerInstall (k + 1) serverNode)
    emit (Effect.appStart 1)
    emit (Effect.appStop 100)
    let remote ← Ipv4InterfaceContainer.GetAddress csmaInterfaces (k + 1)
    emit (Effect.echoClientRemote (k + 1) remote port)
    let clientIndex := (nWifi + UINT32 - 1) % UINT32
    let clientNode ← NodeContainer.Get wifiStaNodes clientIndex
    emit (Effect.echoClientInstall clientIndex clientNode)
    emit (Effect.appStart 2)
    emit (Effect.appStop 100)
    pairingLoop csmaNodes wifiStaNodes csmaInterfaces port k (decr32 nWifi)

/-- The parsed command line: each value is present only when its argument was
given.  `nCsma` is the parsed `uint32_t`. -/
structure Args where
  nCsma : Option Nat
  verbose : Option Bool
  tracing : Option Bool
  deriving DecidableEq, Repr

/-- The function `main`.  `indeterminate` is the value the uninitialised
`uint32_t nCsma` of line 46 happens to hold; `cmd.Parse` overwrites a variable
only when its argument is given.  The result is the exit status. -/
def main (indeterminate : Nat) (argv : Args) : Script Nat := do
  let verbose := argv.verbose.getD true
  let nCsma := argv.nCsma.getD indeterminate
  let tracing := argv.tracing.getD true
  let nWifi := nCsma
  if nCsma > 200 then
    emit (Effect.cout "nCsma should be 200 or less")
    pure 1
  else
    if verbose then
      emit (Effect.logComponentEnable "UdpEchoClientApplication")
      emit (Effect.logComponentEnable "UdpEchoServerApplication")
    let p2pNodes ← NodeContainer.Create [] 2
    let p2pDevices ← installDevices DeviceKind.pointToPoint p2pNodes
    let n1 ← NodeContainer.Get p2pNodes 1
    let csmaNodes ← NodeContainer.Create [n1] nCsma
    let csmaDevices ← installDevices DeviceKind.csma csmaNodes
    let wifiStaNodes ← NodeContainer.Create [] nWifi
    let n0 ← NodeContainer.Get p2pNodes 0
    let wifiApNode : NodeContainer := [n0]
    let staDevices ← installDevices DeviceKind.wifiSta wifiStaNodes
    let apDevices ← installDevices DeviceKind.wifiAp wifiApNode
    emit (Effect.installMobility MobilityModel.randomWalk2d wifiStaNodes)
    emit (Effect.installMobility MobilityModel.constantPosition wifiApNode)
    emit (Effect.installMobility MobilityModel.constantPosition csmaNodes)
    emit (Effect.installStack csmaNodes)
    emit (Effect.installStack wifiApNode)
    emit (Effect.installStack wifiStaNodes)
    let address ← Ipv4AddressHelper.SetBase (ipv4 10 1 1 0) (ipv4 255 255 255 0)
    let (_, _) ← address.Assign p2pDevices
    let address ← Ipv4AddressHelper.SetBase (ipv4 10 1 2 0) (ipv4 255 255 255 0)
    let (csmaInterfaces, _) ← address.Assign csmaDevices
    let address ← Ipv4AddressHelper.SetBase (ipv4 10 1 3 0) (ipv4 255 255 255 0)
    let (_, address) ← address.Assign staDevices
    let (_, _) ← address.Assign apDevices
    let (_, _) ← pairingLoop csmaNodes wifiStaNodes csmaInterfaces 9 nCsma nWifi
    emit Effect.populateRoutingTables
    emit (Effect.simulatorStop 100)
    if tracing then
      emit (Effect.enablePcap "third_p2p")
      let _ ← NetDeviceContainer.Get apDevices 0
      emit (Effect.enablePcap "third_wifi")
      let _ ← NetDeviceContainer.Get csmaDevices 0
      emit (Effect.enablePcap "third_csma")
    emit (Effect.animationInterface "third.xml")
    let a1 ← NodeContainer.Get csmaNodes 1
    emit (Effect.setConstantPosition a1 6 10)
    let a2 ← NodeContainer.Get csmaNodes 2
    emit (Effect.setConstantPosition a2 9 10)
    let a3 ← NodeContainer.Get csmaNodes 3
    emit (Effect.setConstantPosition a3 12 10)
    emit Effect.simulatorRun
    emit Effect.simulatorDestroy
    pure 0

/-- The world before `main` starts. -/
def World.initial : World := { nodeCount := 0, trace := [] }

/-- Run `main` from the initial world: exit status (`none` after a fault) and
final world. -/
def runMain (indeterminate : Nat) (argv : Args) : Option Nat × World :=
  main indeterminate argv World.initial

/-! ### Closed forms of the effects of `main` -/

/-- Addresses handed out by `m` successive `NewAddress` calls. -/
def assignedAddresses (h : Ipv4AddressHelper) (m : Nat) : List Nat :=
  (List.range' h.address m).map (fun a => (h.network * 2 ^ h.shift) ||| a)

/-- Effects of the iteration of the pairing loop whose counters both hold
`j + 1`, given the node and address found at each index. -/
def iterationEffects (serverNode remote clientNode : Nat → Nat) (port j : Nat) : List Effect :=
  [Effect.loopTest (j + 1) (j + 1), Effect.echoServerInstall (j + 1) (serverNode j),
   Effect.appStart 1, Effect.appStop 100, Effect.echoClientRemote (j + 1) (remote j) port,
   Effect.echoClientInstall j (clientNode j), Effect.appStart 2, Effect.appStop 100]

/-- Effects of the whole pairing loop started with both counters at `k`. -/
def loopEffects (serverNode remote clientNode : Nat → Nat) (port k : Nat) : List Effect :=
  (List.range k).reverse.flatMap (iterationEffects serverNode remote clientNode port)
    ++ [Effect.loopTest 0 0]

/-- The CSMA node container built by `main`: the second point-to-point node
followed by the `n` nodes created after it. -/
def csmaNodesOf (n : Nat) : NodeContainer := [1] ++ List.range' 2 n

/-- The Wifi station container built by `main`. -/
def staNodesOf (n : Nat) : NodeContainer := List.range' (2 + n) n

/-- The address helper right after `SetBase(network, "255.255.255.0")`. -/
def subnetHelper (network : Nat) : Ipv4AddressHelper :=
  { network := network / 256, mask := ipv4 255 255 255 0, address := 1, shift := 8, max := 254 }

/-- Effects of one `Assign` of `m` devices. -/
def assignEffects (h : Ipv4AddressHelper) (m : Nat) : List Effect :=
  (assignedAddresses h m).map (Effect.assign (h.network * 2 ^ h.shift))

/-- Effects of lines 67-143 of `main`. -/
def buildEffects (verbose : Bool) (n : Nat) : List Effect :=
  (if verbose then [Effect.logComponentEnable "UdpEchoClientApplication",
                    Effect.logComponentEnable "UdpEchoServerApplication"] else []) ++
  [Effect.createNodes 0 2, Effect.installDevices DeviceKind.pointToPoint [0, 1],
   Effect.createNodes 2 n, Effect.installDevices DeviceKind.csma (csmaNodesOf n),
   Effect.createNodes (2 + n) n, Effect.installDevices DeviceKind.wifiSta (staNodesOf n),
   Effect.installDevices DeviceKind.wifiAp [0],
   Effect.installMobility MobilityModel.randomWalk2d (staNodesOf n),
   Effect.installMobility MobilityModel.constantPosition [0],
   Effect.installMobility MobilityModel.constantPosition (csmaNodesOf n),
   Effect.installStack (csmaNodesOf n), Effect.installStack [0],
   Effect.installStack (staNodesOf n)]

/-- Effects of lines 145-160 of `main`. -/
def addressEffects (n : Nat) : List Effect :=
  [Effect.setBase (ipv4 10 1 1 0) (ipv4 255 255 255 0)] ++
  assignEffects (subnetHelper (ipv4 10 1 1 0)) 2 ++
  [Effect.setBase (ipv4 10 1 2 0) (ipv4 255 255 255 0)] ++
  assignEffects (subnetHelper (ipv4 10 1 2 0)) (n + 1) ++
  [Effect.setBase (ipv4 10 1 3 0) (ipv4 255 255 255 0)] ++
  assignEffects (subnetHelper (ipv4 10 1 3 0)) n ++
  assignEffects { subnetHelper (ipv4 10 1 3 0) with address := 1 + n } 1

/-- Effects of the pairing loop inside `main`. -/
def pairEffects (n : Nat) : List Effect :=
  loopEffects (fun j => j + 2) (fun j => (ipv4 10 1 2 0 / 256 * 2 ^ 8) ||| (j + 2))
    (fun j => 2 + n + j) 9 n

/-- Effects of lines 185-203 of `main`; the script gets as far as the container
built from `n` lets the three `csmaNodes.Get` calls go. -/
def finishEffects (tracing : Bool) (n : Nat) : List Effect :=
  [Effect.populateRoutingTables, Effect.simulatorStop 100] ++
  (if tracing then [Effect.enablePcap "third_p2p", Effect.enablePcap "third_wifi",
                    Effect.enablePcap "third_csma"] else []) ++
  [Effect.animationInterface "third.xml"] ++
  (List.range (min n 3)).map (fun j => Effect.setConstantPosition (j + 2) (6 + 3 * j) 10) ++
  (if 3 ≤ n then [Effect.simulatorRun, Effect.simulatorDestroy] else [])

/-! ### Observations on a trace -/

/-- The calls of the pairing loop, reduced to the indices they use. -/
inductive PairCall where
  | loopTest (nCsma nWifi : Nat)
  | server (index : Nat)
  | remote (index port : Nat)
  | client (index : Nat)
  deriving DecidableEq, Repr

/-- The pairing-loop call behind an effect, if it is one. -/
def pairCall? : Effect → Option PairCall
  | Effect.loopTest a b => some (PairCall.loopTest a b)
  | Effect.echoServerInstall i _ => some (PairCall.server i)
  | Effect.echoClientRemote i _ port => some (PairCall.remote i port)
  | Effect.echoClientInstall i _ => some (PairCall.client i)
  | _ => none

/-- The pairing-loop calls of a trace, in order. -/
def pairCalls (t : List Effect) : List PairCall := t.filterMap pairCall?

/-- The script's calls against the scheduler. -/
inductive SimCall where
  | stop (seconds : Nat)
  | run
  | destroy
  deriving DecidableEq, Repr

/-- The scheduler call behind an effect, if it is one. -/
def simCall? : Effect → Option SimCall
  | Effect.simulatorStop s => some (SimCall.stop s)
  | Effect.simulatorRun => some SimCall.run
  | Effect.simulatorDestroy => some SimCall.destroy
  | _ => none

/-- The scheduler calls of a trace, in order. -/
def simulatorCalls (t : List Effect) : List SimCall := t.filterMap simCall?

/-- The addresses a trace assigns on a network, in order. -/
def assignedOn (network : Nat) (t : List Effect) : List Nat :=
  t.filterMap fun e =>
    match e with
    | Effect.assign net addr => if net = network then some addr else none
    | _ => none

/-- Whether an effect creates a node, a device, an address or an application,
or calls the scheduler. -/
def Effect.builds : Effect → Bool
  | Effect.createNodes _ _ => true
  | Effect.installDevices _ _ => true
  | Effect.assign _ _ => true
  | Effect.echoServerInstall _ _ => true
  | Effect.echoClientInstall _ _ => true
  | Effect.simulatorStop _ => true
  | Effect.simulatorRun => true
  | Effect.simulatorDestroy => true
  | _ => false

/-- The (server index, remote address index, client index) triples of a
sequence of pairing-loop calls. -/
def pairTriples : List PairCall → List (Nat × Nat × Nat)
  | PairCall.server s :: PairCall.remote r _ :: PairCall.client c :: rest =>
    (s, r, c) :: pairTriples rest
  | _ :: rest => pairTriples rest
  | [] => []

/-! ## Part II: the scheduler behind `Simulator::Stop/Run/Destroy`

The script only calls the scheduler; the scheduler itself is specified in
sections 3 and 4 of the specification and modelled here from that text.  A
callback is represented by a value of a type `P` together with a `handler`
that tells which scheduler operations the callback performs when invoked. -/

/-- Modelled from the spec: `Event` of the data model, with its id, absolute
time, callback, insertion sequence number and cancelled flag.  A `SimTime` is
a natural number of time units since the start of the simulation, and an
`EventHandle` is the id of an event. -/
structure Event (P : Type) where
  id : Nat
  time : Nat
  callback : P
  sequence : Nat
  cancelled : Bool
  deriving DecidableEq, Repr

/-- Modelled from the spec: the ordering key of the event queue, time
ascending, then insertion sequence ascending. -/
def Event.before {P : Type} (a b : Event P) : Bool :=
  decide (a.time < b.time) || (decide (a.time = b.time) && decide (a.sequence < b.sequence))

/-- Modelled from the spec: the states of the scheduler's state machine (4.2). -/
inductive Phase where
  | idle
  | running
  | stoppedEmpty
  | stoppedDeadline
  | stoppedRequested
  | destroyed
  deriving DecidableEq, Repr

/-- Modelled from the spec: the error kinds of section 7. -/
inductive SchedulerError where
  | invalidDelay
  | invalidTime
  | notRunning
  deriving DecidableEq, Repr

/-- Modelled from the spec: the operations open to external code and to
callbacks (section 6), as values. -/
inductive Request (P : Type) where
  | schedule (delay : Int) (callback : P)
  | scheduleAt (time : Int) (callback : P)
  | cancel (handle : Nat)
  | stopAt (time : Nat)
  | stopNow
  deriving DecidableEq, Repr

/-- Modelled from the spec: the scheduler with its clock, event queue (kept in
key order), counter for ids and sequence numbers, stop request (deadline and
immediate-stop flag) and state; `invoked` records each callback invocation
with the clock value observed at that moment. -/
structure Engine (P : Type) where
  clock : Nat
  queue : List (Event P)
  issued : Nat
  deadline : Option Nat
  stopFlag : Bool
  phase : Phase
  invoked : List (Nat × Event P)
  deriving DecidableEq, Repr

/-- Modelled from the spec: a new scheduler, Idle at time zero. -/
def Engine.fresh {P : Type} : Engine P :=
  { clock := 0, queue := [], issued := 0, deadline := none, stopFlag := false,
    phase := Phase.idle, invoked := [] }

/-- Modelled from the spec: `insert` of the event queue (4.1): the event goes
in front of the first event it precedes in key order. -/
def EventQueue.insert {P : Type} (e : Event P) : List (Event P) → List (Event P)
  | [] => [e]
  | x :: q => if e.before x then e :: x :: q else x :: EventQueue.insert e q

/-- Modelled from the spec: `popMin` of the event queue (4.1); an empty queue
is the normal end of the run. -/
def EventQueue.popMin {P : Type} : List (Event P) → Option (Event P × List (Event P))
  | [] => none
  | e :: q => some (e, q)

/-- Modelled from the spec: `remove(handle)` of the event queue (4.1) by lazy
cancellation: the event is marked and skipped when popped.  The result tells
whether a pending, not yet cancelled event was found. -/
def EventQueue.remove {P : Type} (h : Nat) (q : List (Event P)) :
    Bool × List (Event P) :=
  (q.any (fun e => decide (e.id = h) && !e.cancelled),
   q.map (fun e => if e.id = h then { e with cancelled := true } else e))

/-- Modelled from the spec: `schedule(delay, callback)` (4.2). -/
def Engine.schedule {P : Type} (delay : Int) (callback : P) (s : Engine P) :
    Except SchedulerError (Nat × Engine P) :=
  if s.phase = Phase.destroyed then Except.error SchedulerError.notRunning
  else if delay < 0 then Except.error SchedulerError.invalidDelay
  else Except.ok (s.issued,
    { s with
      queue := EventQueue.insert
        { id := s.issued, time := s.clock + delay.toNat, callback := callback,
          sequence := s.issued, cancelled := false } s.queue,
      issued := s.issued + 1 })

/-- Modelled from the spec: `scheduleAt(absoluteTime, callback)` (4.2). -/
def Engine.scheduleAt {P : Type} (time : Int) (callback : P) (s : Engine P) :
    Except SchedulerError (Nat × Engine P) :=
  if s.phase = Phase.destroyed then Except.error SchedulerError.notRunning
  else if time < (s.clock : Int) then Except.error SchedulerError.invalidTime
  else Except.ok (s.issued,
    { s with
      queue := EventQueue.insert
        { id := s.issued, time := time.toNat, callback := callback,
          sequence := s.issued, cancelled := false } s.queue,
      issued := s.issued + 1 })

/-- Modelled from the spec: `cancel(handle)` (4.2), idempotent, never an error. -/
def Engine.cancel {P : Type} (h : Nat) (s : Engine P) : Bool × Engine P :=
  ((EventQueue.remove h s.queue).1, { s with queue := (EventQueue.remove h s.queue).2 })

/-- Whether the scheduler is in one of its Stopped states. -/
def Phase.stopped : Phase → Bool
  | Phase.stoppedEmpty => true
  | Phase.stoppedDeadline => true
  | Phase.stoppedRequested => true
  | _ => false

/-- Modelled from the spec: `stopAt(T)` (4.3): the earliest deadline wins; a
no-op once the scheduler is Stopped or Destroyed. -/
def Engine.stopAt {P : Type} (t : Nat) (s : Engine P) : Engine P :=
  if s.phase.stopped || decide (s.phase = Phase.destroyed) then s
  else
    { s with
      deadline := some (match s.deadline with
        | some d => min d t
        | none => t) }

/-- Modelled from the spec: `stopNow()` (4.3): takes effect when the run loop
next looks at the flag, that is after the current callback has returned. -/
def Engine.stopNow {P : Type} (s : Engine P) : Engine P :=
  if s.phase.stopped || decide (s.phase = Phase.destroyed) then s
  else { s with stopFlag := true }

/-- One operation performed by external code or by a callback; an operation
that reports an error leaves the scheduler as it was. -/
def Engine.perform {P : Type} (s : Engine P) : Request P → Engine P
  | Request.schedule delay callback =>
    match s.schedule delay callback with
    | Except.ok (_, s1) => s1
    | Except.error _ => s
  | Request.scheduleAt time callback =>
    match s.scheduleAt time callback with
    | Except.ok (_, s1) => s1
    | Except.error _ => s
  | Request.cancel h => (s.cancel h).2
  | Request.stopAt t => s.stopAt t
  | Request.stopNow => s.stopNow

/-- A sequence of operations, in order. -/
def Engine.performAll {P : Type} (s : Engine P) (rs : List (Request P)) : Engine P :=
  rs.foldl Engine.perform s

/-- Modelled from the spec: one pass of the run loop of `run()` (4.2).  The
loop ends on the immediate-stop flag, on an empty queue, or when the next
event lies beyond the deadline: then the clock moves to the deadline and the
event stays queued.  A cancelled event is popped and dropped.  Any other event
is popped, the clock moves to its time and its callback is invoked. -/
def Engine.turn {P : Type} (handler : P → Nat → List (Request P)) (s : Engine P) :
    Engine P :=
  if s.stopFlag then { s with phase := Phase.stoppedRequested }
  else
    match EventQueue.popMin s.queue with
    | none => { s with phase := Phase.stoppedEmpty }
    | some (e, q) =>
      match s.deadline with
      | some d =>
        if d < e.time then { s with clock := max s.clock d, phase := Phase.stoppedDeadline }
        else if e.cancelled then { s with queue := q }
        else Engine.performAll
          { s with queue := q, clock := e.time, invoked := s.invoked ++ [(e.time, e)] }
          (handler e.callback e.time)
      | none =>
        if e.cancelled then { s with queue := q }
        else Engine.performAll
          { s with queue := q, clock := e.time, invoked := s.invoked ++ [(e.time, e)] }
          (handler e.callback e.time)

/-- The run loop, for at most `fuel` passes. -/
def Engine.runLoop {P : Type} (handler : P → Nat → List (Request P)) :
    Nat → Engine P → Engine P
  | 0, s => s
  | fuel + 1, s =>
    if s.phase = Phase.running then Engine.runLoop handler fuel (Engine.turn handler s) else s

/-- Modelled from the spec: `run()`: Idle to Running on entry, then the run
loop.  The scheduler is still Running when `fuel` passes were not enough. -/
def Engine.run {P : Type} (handler : P → Nat → List (Request P)) (fuel : Nat)
    (s : Engine P) : Engine P :=
  if s.phase = Phase.idle then Engine.runLoop handler fuel { s with phase := Phase.running }
  else s

/-- Modelled from the spec: `destroy()`: releases the remaining events and
resets the scheduler; the record of past invocations is kept. -/
def Engine.destroy {P : Type} (s : Engine P) : Engine P :=
  { Engine.fresh with phase := Phase.destroyed, invoked := s.invoked }

/-- A callback that performs no scheduler operation. -/
def plain {P : Type} : P → Nat → List (Request P) := fun _ _ => []

/-- Strict key order on events: earlier time, or equal time and earlier
insertion. -/
def Event.lt {P : Type} (a b : Event P) : Prop :=
  a.time < b.time ∨ (a.time = b.time ∧ a.sequence < b.sequence)

/-- The ordering invariant of the scheduler: the queue is in strict key order,
every invocation so far happened at the time of its event, in strict key
order, and precedes everything that is still queued. -/
structure Ordered {P : Type} (clock issued : Nat) (queue : List (Event P))
    (invoked : List (Nat × Event P)) : Prop where
  queue_sorted : queue.Pairwise Event.lt
  queue_sequence : ∀ e ∈ queue, e.sequence < issued
  queue_time : ∀ e ∈ queue, clock ≤ e.time
  invoked_sorted : (invoked.map Prod.snd).Pairwise Event.lt
  invoked_clock : ∀ x ∈ invoked, x.1 = x.2.time ∧ x.2.time ≤ clock ∧ x.2.sequence < issued
  invoked_before : ∀ x ∈ invoked, ∀ e ∈ queue, Event.lt x.2 e

/-- The ordering invariant, on a scheduler. -/
def Engine.Ordered {P : Type} (s : Engine P) : Prop :=
  Mythird.Ordered s.clock s.issued s.queue s.invoked

theorem Script.pure_run {α : Type} (a : α) (w : World) :
    (pure a : Script α) w = (some a, w) := rfl

theorem Script.bind_run {α β : Type} (x : Script α) (f : α → Script β) (w : World) :
    (x >>= f) w = match x w with
      | (some a, w1) => f a w1
      | (none, w1) => (none, w1) := rfl

theorem emit_run (e : Effect) (w : World) :
    emit e w = (some (), { nodeCount := w.nodeCount, trace := w.trace ++ [e] }) := rfl

theorem fault_run {α : Type} (w : World) : (fault : Script α) w = (none, w) := rfl

theorem NodeContainer.Get_some {xs : NodeContainer} {i node : Nat} (h : xs[i]? = some node)
    (w : World) : NodeContainer.Get xs i w = (some node, w) := by
  simp [NodeContainer.Get, h, Script.pure_run]

theorem NodeContainer.Get_none {xs : NodeContainer} {i : Nat} (h : xs[i]? = none)
    (w : World) : NodeContainer.Get xs i w = (none, w) := by
  simp [NodeContainer.Get, h, fault_run]

theorem Ipv4InterfaceContainer.GetAddress_some {xs : Ipv4InterfaceContainer} {i addr : Nat}
    (h : xs[i]? = some addr) (w : World) :
    Ipv4InterfaceContainer.GetAddress xs i w = (some addr, w) := by
  simp [Ipv4InterfaceContainer.GetAddress, h, Script.pure_run]

theorem NetDeviceContainer.DeviceGet_some {xs : NetDeviceContainer} {i dev : Nat}
    (h : xs[i]? = some dev) (w : World) :
    NetDeviceContainer.Get xs i w = (some dev, w) := by
  simp [NetDeviceContainer.Get, h, Script.pure_run]

theorem Ipv4AddressHelper.Assign_run (devs : NetDeviceContainer) :
    ∀ (h : Ipv4AddressHelper) (w : World), h.address + devs.length ≤ h.max + 1 →
      h.Assign devs w =
        (some (assignedAddresses h devs.length, { h with address := h.address + devs.length }),
          { nodeCount := w.nodeCount,
            trace := w.trace ++
              (assignedAddresses h devs.length).map (Effect.assign (h.network * 2 ^ h.shift)) }) := by
  induction devs with
  | nil =>
    intro h w _
    simp [Ipv4AddressHelper.Assign, assignedAddresses, Script.pure_run]
  | cons d rest ih =>
    intro h w hfit
    simp only [List.length_cons] at hfit
    have hle : h.address ≤ h.max := by omega
    have hrest : ({ h with address := h.address + 1 } : Ipv4AddressHelper).address + rest.length
        ≤ ({ h with address := h.address + 1 } : Ipv4AddressHelper).max + 1 := by
      simp only; omega
    simp only [Ipv4AddressHelper.Assign, Ipv4AddressHelper.NewAddress, hle, if_true,
      Script.bind_run, emit_run, Script.pure_run, ih _ _ hrest]
    simp [assignedAddresses, List.range'_succ, Nat.add_assoc, Nat.add_comm 1]

theorem decr32_succ {k : Nat} (hk : k + 1 < UINT32) : decr32 (k + 1) = k := by
  unfold decr32 UINT32 at *
  omega

theorem pairingLoop_run (csmaNodes wifiStaNodes : NodeContainer)
    (csmaInterfaces : Ipv4InterfaceContainer) (port : Nat) (serverNode remote clientNode : Nat → Nat)
    (k : Nat) :
    ∀ (w : World), k < UINT32 →
      (∀ j, j < k → csmaNodes[j + 1]? = some (serverNode j)) →
      (∀ j, j < k → csmaInterfaces[j + 1]? = some (remote j)) →
      (∀ j, j < k → wifiStaNodes[j]? = some (clientNode j)) →
      pairingLoop csmaNodes wifiStaNodes csmaInterfaces port k k w =
        (some (0, 0), { nodeCount := w.nodeCount,
                        trace := w.trace ++ loopEffects serverNode remote clientNode port k }) := by
  induction k with
  | zero =>
    intro w _ _ _ _
    simp [pairingLoop, loopEffects, Script.bind_run, emit_run, Script.pure_run]
  | succ k ih =>
    intro w hk h1 h2 h3
    have hidx : (k + 1 + UINT32 - 1) % UINT32 = k := by
      unfold UINT32 at *
      omega
    have e1 := h1 k (Nat.lt_succ_self k)
    have e2 := h2 k (Nat.lt_succ_self k)
    have e3 := h3 k (Nat.lt_succ_self k)
    have hrec := fun w1 => ih w1 (by omega) (fun j hj => h1 j (by omega))
      (fun j hj => h2 j (by omega)) (fun j hj => h3 j (by omega))
    simp only [pairingLoop, Script.bind_run, emit_run, hidx, NodeContainer.Get_some e1,
      Ipv4InterfaceContainer.GetAddress_some e2, NodeContainer.Get_some e3, decr32_succ hk, hrec]
    simp [loopEffects, iterationEffects, List.range_succ]

theorem NumAddressBits_slash24 : NumAddressBits 32 (ipv4 255 255 255 0) = 8 := by decide

theorem Script.ite_run {α : Type} (c : Prop) [Decidable c] (x y : Script α) (w : World) :
    (if c then x else y) w = if c then x w else y w := by
  split <;> rfl

theorem Script.bind_of_run {α β : Type} {x : Script α} {w w1 : World} {a : α}
    (h : x w = (some a, w1)) (f : α → Script β) : (x >>= f) w = f a w1 := by
  simp [Script.bind_run, h]

theorem Script.bind_of_fault {α β : Type} {x : Script α} {w w1 : World}
    (h : x w = (none, w1)) (f : α → Script β) : (x >>= f) w = (none, w1) := by
  simp [Script.bind_run, h]

theorem Script.bind_pure_run {α β : Type} (a : α) (f : α → Script β) (w : World) :
    (pure a >>= f) w = f a w := rfl

theorem Script.bind_emit (e : Effect) {β : Type} (f : Unit → Script β) (w : World) :
    (emit e >>= f) w = f () { nodeCount := w.nodeCount, trace := w.trace ++ [e] } := rfl

theorem Script.bind_Create (xs : NodeContainer) (n : Nat) {β : Type}
    (f : NodeContainer → Script β) (w : World) :
    (NodeContainer.Create xs n >>= f) w =
      f (xs ++ List.range' w.nodeCount n)
        { nodeCount := w.nodeCount + n,
          trace := w.trace ++ [Effect.createNodes w.nodeCount n] } := rfl

theorem Script.bind_installDevices (kind : DeviceKind) (nodes : NodeContainer) {β : Type}
    (f : NetDeviceContainer → Script β) (w : World) :
    (installDevices kind nodes >>= f) w =
      f nodes { nodeCount := w.nodeCount,
                trace := w.trace ++ [Effect.installDevices kind nodes] } := rfl

theorem Script.bind_SetBase (network mask : Nat) {β : Type}
    (f : Ipv4AddressHelper → Script β) (w : World) :
    (Ipv4AddressHelper.SetBase network mask >>= f) w =
      f { network := network / 2 ^ NumAddressBits 32 mask, mask := mask, address := 1,
          shift := NumAddressBits 32 mask, max := 2 ^ NumAddressBits 32 mask - 2 }
        { nodeCount := w.nodeCount, trace := w.trace ++ [Effect.setBase network mask] } := rfl

theorem Script.bind_NodeGet (xs : NodeContainer) (i : Nat) {β : Type} (f : Nat → Script β)
    (w : World) :
    (NodeContainer.Get xs i >>= f) w =
      match xs[i]? with
      | some node => f node w
      | none => (none, w) := by
  unfold NodeContainer.Get
  cases xs[i]? <;> rfl

theorem Script.bind_DeviceGet (xs : NetDeviceContainer) (i : Nat) {β : Type} (f : Nat → Script β)
    (w : World) :
    (NetDeviceContainer.Get xs i >>= f) w =
      match xs[i]? with
      | some dev => f dev w
      | none => (none, w) := by
  unfold NetDeviceContainer.Get
  cases xs[i]? <;> rfl

theorem Ipv4AddressHelper.SetBase_slash24 (network : Nat) (w : World) :
    Ipv4AddressHelper.SetBase network (ipv4 255 255 255 0) w =
      (some { network := network / 256, mask := ipv4 255 255 255 0, address := 1, shift := 8,
              max := 254 },
        { nodeCount := w.nodeCount,
          trace := w.trace ++ [Effect.setBase network (ipv4 255 255 255 0)] }) := by
  have h := NumAddressBits_slash24
  unfold Ipv4AddressHelper.SetBase
  simp only [Script.bind_emit, Script.pure_run, h]
  rfl

theorem csmaNodesOf_getElem? (n j : Nat) (hj : j < n) : (csmaNodesOf n)[j + 1]? = some (j + 2) := by
  simp [csmaNodesOf, List.getElem?_range', hj, Nat.add_comm]

theorem staNodesOf_getElem? (n j : Nat) (hj : j < n) : (staNodesOf n)[j]? = some (2 + n + j) := by
  simp [staNodesOf, List.getElem?_range', hj]

theorem assignedAddresses_getElem? (h : Ipv4AddressHelper) (m j : Nat) (hj : j < m) :
    (assignedAddresses h m)[j]? = some ((h.network * 2 ^ h.shift) ||| (h.address + j)) := by
  simp [assignedAddresses, List.getElem?_range', hj]

/-- Closed form of a run of `main` on an accepted `nCsma`. -/
theorem runMain_accepted (u : Nat) (argv : Args) (hn : argv.nCsma.getD u ≤ 200) :
    runMain u argv =
      (if 3 ≤ argv.nCsma.getD u then some 0 else none,
        { nodeCount := 2 + argv.nCsma.getD u + argv.nCsma.getD u,
          trace := buildEffects (argv.verbose.getD true) (argv.nCsma.getD u) ++
            addressEffects (argv.nCsma.getD u) ++ pairEffects (argv.nCsma.getD u) ++
            finishEffects (argv.tracing.getD true) (argv.nCsma.getD u) }) := by
  unfold runMain main
  dsimp only
  generalize argv.nCsma.getD u = n at hn ⊢
  generalize argv.verbose.getD true = v
  generalize argv.tracing.getD true = t
  have hgt : ¬ n > 200 := by omega
  have h32 : n < UINT32 := by unfold UINT32; omega
  have hloop := fun w => pairingLoop_run (csmaNodesOf n) (staNodesOf n)
    (assignedAddresses (subnetHelper (ipv4 10 1 2 0)) (n + 1)) 9 (fun j => j + 2)
    (fun j => (ipv4 10 1 2 0 / 256 * 2 ^ 8) ||| (j + 2)) (fun j => 2 + n + j) n w h32
    (fun j hj => csmaNodesOf_getElem? n j hj)
    (fun j hj => by
      rw [assignedAddresses_getElem? _ _ _ (by omega)]
      simp [subnetHelper, Nat.add_comm, Nat.add_left_comm])
    (fun j hj => staNodesOf_getElem? n j hj)
  have hc0 : (csmaNodesOf n)[0]? = some 1 := by simp [csmaNodesOf]
  have hlen : List.length ([1] ++ List.range' 2 n) = n + 1 := by
    simp [List.length_range', Nat.add_comm]
  have hlen2 : (List.range' (2 + n) n).length = n := by simp
  simp only [csmaNodesOf, staNodesOf, subnetHelper] at hloop hc0
  cases v <;> cases t <;>
  · simp only [World.initial, hgt, if_false, if_true, Script.ite_run, Bool.false_eq_true]
    simp only [Script.bind_pure_run, List.nil_append, List.range'_succ, List.range'_zero,
      List.getElem?_cons_succ, List.getElem?_cons_zero, Nat.zero_add, Script.bind_Create,
      Script.bind_installDevices, Script.bind_NodeGet, Script.bind_emit]
    rw [Script.bind_of_run (Ipv4AddressHelper.SetBase_slash24 _ _)]
    rw [Script.bind_of_run (Ipv4AddressHelper.Assign_run _ _ _ (by simp))]
    rw [Script.bind_of_run (Ipv4AddressHelper.SetBase_slash24 _ _)]
    rw [Script.bind_of_run (Ipv4AddressHelper.Assign_run _ _ _ (by simp; omega))]
    rw [Script.bind_of_run (Ipv4AddressHelper.SetBase_slash24 _ _)]
    rw [Script.bind_of_run (Ipv4AddressHelper.Assign_run _ _ _ (by simp; omega))]
    rw [Script.bind_of_run (Ipv4AddressHelper.Assign_run _ _ _ (by simp; omega))]
    dsimp only
    simp only [hlen, hlen2]
    rw [Script.bind_of_run (hloop _)]
    simp only [Script.bind_emit, Script.bind_pure_run, Script.bind_DeviceGet, hc0,
      List.getElem?_cons_zero]
    rcases n with _ | _ | _ | m <;>
    · simp only [Script.bind_NodeGet, Script.bind_emit, Script.pure_run, List.range'_zero,
        List.range'_succ, List.getElem?_cons_succ, List.getElem?_cons_zero,
        List.getElem?_nil, List.cons_append, List.nil_append]
      simp [buildEffects, addressEffects, pairEffects, finishEffects, assignEffects,
        subnetHelper, csmaNodesOf, staNodesOf, List.range_succ, List.range'_succ]

theorem runMain_rejected (u : Nat) (argv : Args) (hn : 200 < argv.nCsma.getD u) :
    runMain u argv =
      (some 1, { nodeCount := 0, trace := [Effect.cout "nCsma should be 200 or less"] }) := by
  unfold runMain main
  dsimp only
  generalize argv.nCsma.getD u = n at hn ⊢
  have hgt : n > 200 := hn
  simp only [hgt, if_true, Script.bind_emit, Script.pure_run, World.initial, List.nil_append]

/-! ### Observations on a run of `main` -/

theorem pairCalls_append (s t : List Effect) : pairCalls (s ++ t) = pairCalls s ++ pairCalls t := by
  simp [pairCalls]

theorem pairCalls_buildEffects (v : Bool) (n : Nat) : pairCalls (buildEffects v n) = [] := by
  cases v <;> simp [pairCalls, buildEffects, pairCall?]

theorem pairCalls_assignEffects (h : Ipv4AddressHelper) (m : Nat) :
    pairCalls (assignEffects h m) = [] := by
  simp [pairCalls, assignEffects, List.filterMap_map, Function.comp_def, pairCall?]

theorem pairCalls_addressEffects (n : Nat) : pairCalls (addressEffects n) = [] := by
  simp only [addressEffects, pairCalls_append, pairCalls_assignEffects]
  simp [pairCalls, pairCall?]

theorem pairCalls_finishEffects (t : Bool) (n : Nat) : pairCalls (finishEffects t n) = [] := by
  cases t <;> by_cases h : 3 ≤ n <;>
    simp [pairCalls, finishEffects, pairCall?, h, List.filterMap_map, Function.comp_def]

theorem pairCalls_loopEffects (sn ad cl : Nat → Nat) (port k : Nat) :
    pairCalls (loopEffects sn ad cl port k) =
      (List.range' 1 k).reverse.flatMap
        (fun i => [PairCall.loopTest i i, PairCall.server i, PairCall.remote i port,
                   PairCall.client (i - 1)]) ++ [PairCall.loopTest 0 0] := by
  induction k with
  | zero => simp [loopEffects, pairCalls, pairCall?]
  | succ k ih =>
    simp only [loopEffects, pairCalls] at ih ⊢
    simp only [List.range_succ, List.reverse_append, List.reverse_singleton, List.singleton_append,
      List.flatMap_cons, List.append_assoc, List.filterMap_append] at ih ⊢
    rw [ih]
    simp [iterationEffects, pairCall?, List.range'_concat, Nat.add_comm]

theorem pairTriples_iterations (port : Nat) (ks : List Nat) :
    pairTriples (ks.flatMap (fun k => [PairCall.loopTest k k, PairCall.server k,
        PairCall.remote k port, PairCall.client (k - 1)]) ++ [PairCall.loopTest 0 0]) =
      ks.map (fun k => (k, k, k - 1)) := by
  induction ks with
  | nil => simp [pairTriples]
  | cons k ks ih =>
    simp only [List.flatMap_cons, List.cons_append, List.nil_append, List.map_cons] at ih ⊢
    rw [← ih]
    rfl

theorem pairCalls_runMain (u : Nat) (argv : Args) (hn : argv.nCsma.getD u ≤ 200) :
    pairCalls (runMain u argv).2.trace =
      (List.range' 1 (argv.nCsma.getD u)).reverse.flatMap
        (fun k => [PairCall.loopTest k k, PairCall.server k, PairCall.remote k 9,
                   PairCall.client (k - 1)]) ++ [PairCall.loopTest 0 0] := by
  rw [runMain_accepted u argv hn]
  simp only [pairCalls_append, pairCalls_buildEffects, pairCalls_addressEffects,
    pairCalls_finishEffects, pairEffects, pairCalls_loopEffects, List.nil_append,
    List.append_nil]

theorem simulatorCalls_runMain (u : Nat) (argv : Args) (hn : argv.nCsma.getD u ≤ 200) :
    simulatorCalls (runMain u argv).2.trace =
      SimCall.stop 100 ::
        (if 3 ≤ argv.nCsma.getD u then [SimCall.run, SimCall.destroy] else []) := by
  rw [runMain_accepted u argv hn]
  generalize argv.nCsma.getD u = n
  generalize argv.verbose.getD true = v
  generalize argv.tracing.getD true = t
  have h1 : simulatorCalls (buildEffects v n) = [] := by
    cases v <;> simp [simulatorCalls, buildEffects, simCall?]
  have h2 : ∀ h m, simulatorCalls (assignEffects h m) = [] := by
    intro h m
    simp [simulatorCalls, assignEffects, List.filterMap_map, Function.comp_def, simCall?]
  have h3 : simulatorCalls (addressEffects n) = [] := by
    simp only [addressEffects, simulatorCalls, List.filterMap_append] at h2 ⊢
    simp only [h2]
    simp [simCall?]
  have h4 : simulatorCalls (pairEffects n) = [] := by
    simp [simulatorCalls, pairEffects, loopEffects, iterationEffects, simCall?,
      List.filterMap_flatMap]
  have h5 : simulatorCalls (finishEffects t n) =
      SimCall.stop 100 :: (if 3 ≤ n then [SimCall.run, SimCall.destroy] else []) := by
    cases t <;> by_cases h : 3 ≤ n <;>
      simp [simulatorCalls, finishEffects, simCall?, h, List.filterMap_map, Function.comp_def]
  simp only [simulatorCalls, List.filterMap_append] at h1 h3 h4 h5 ⊢
  simp only [h1, h3, h4, h5, List.nil_append]

theorem assignedOn_assignEffects (net : Nat) (h : Ipv4AddressHelper) (m : Nat) :
    assignedOn net (assignEffects h m) =
      if h.network * 2 ^ h.shift = net then assignedAddresses h m else [] := by
  by_cases hnet : h.network * 2 ^ h.shift = net
  · simp [assignedOn, assignEffects, List.filterMap_map, Function.comp_def, hnet]
  · simp [assignedOn, assignEffects, List.filterMap_map, Function.comp_def, hnet]

theorem slash24_address (a b c host : Nat) (hh : host < 256) :
    (ipv4 a b c 0 / 256 * 2 ^ 8) ||| host = ipv4 a b c host := by
  have h1 : ipv4 a b c 0 / 256 * 2 ^ 8 = 2 ^ 8 * ((a * 256 + b) * 256 + c) := by
    unfold ipv4
    omega
  rw [h1, ← Nat.mul_add_lt_is_or (by omega)]
  unfold ipv4
  omega

theorem assignedAddresses_slash24 (a b c first m : Nat) (hm : first + m ≤ 256) :
    assignedAddresses { subnetHelper (ipv4 a b c 0) with address := first } m =
      (List.range' first m).map (ipv4 a b c) := by
  unfold assignedAddresses subnetHelper
  dsimp only
  apply List.map_congr_left
  intro x hx
  have := (List.mem_range'_1.mp hx).2
  exact slash24_address a b c x (by omega)

theorem assignedOn_runMain (u : Nat) (argv : Args) (hn : argv.nCsma.getD u ≤ 200) (net : Nat) :
    assignedOn net (runMain u argv).2.trace =
      (if ipv4 10 1 1 0 = net then (List.range' 1 2).map (ipv4 10 1 1) else []) ++
      (if ipv4 10 1 2 0 = net then
        (List.range' 1 (argv.nCsma.getD u + 1)).map (ipv4 10 1 2) else []) ++
      (if ipv4 10 1 3 0 = net then
        (List.range' 1 (argv.nCsma.getD u + 1)).map (ipv4 10 1 3) else []) := by
  rw [runMain_accepted u argv hn]
  generalize argv.nCsma.getD u = n at hn ⊢
  generalize argv.verbose.getD true = v
  generalize argv.tracing.getD true = t
  have h1 : assignedOn net (buildEffects v n) = [] := by
    cases v <;> simp [assignedOn, buildEffects]
  have h4 : assignedOn net (pairEffects n) = [] := by
    simp [assignedOn, pairEffects, loopEffects, iterationEffects, List.filterMap_flatMap]
  have h5 : assignedOn net (finishEffects t n) = [] := by
    cases t <;> by_cases h : 3 ≤ n <;>
      simp [assignedOn, finishEffects, h, List.filterMap_map, Function.comp_def]
  have hs : ∀ (x y : Nat), assignedOn net [Effect.setBase x y] = [] := by
    intro x y
    simp [assignedOn]
  have hnet : ∀ a b c first, ({ subnetHelper (ipv4 a b c 0) with address := first } :
      Ipv4AddressHelper).network * 2 ^ ({ subnetHelper (ipv4 a b c 0) with address := first } :
      Ipv4AddressHelper).shift = ipv4 a b c 0 := by
    intro a b c first
    simp only [subnetHelper, ipv4]
    omega
  have ha := fun a b c first m => assignedOn_assignEffects net
    { subnetHelper (ipv4 a b c 0) with address := first } m
  simp only [hnet] at ha
  have h3 : assignedOn net (addressEffects n) =
      (if ipv4 10 1 1 0 = net then (List.range' 1 2).map (ipv4 10 1 1) else []) ++
      (if ipv4 10 1 2 0 = net then (List.range' 1 (n + 1)).map (ipv4 10 1 2) else []) ++
      (if ipv4 10 1 3 0 = net then (List.range' 1 (n + 1)).map (ipv4 10 1 3) else []) := by
    have e1 := ha 10 1 1 1 2
    have e2 := ha 10 1 2 1 (n + 1)
    have e3 := ha 10 1 3 1 n
    have e4 := ha 10 1 3 (1 + n) 1
    rw [assignedAddresses_slash24 _ _ _ _ _ (by omega)] at e1 e2 e3 e4
    have e1' : assignedOn net (assignEffects (subnetHelper (ipv4 10 1 1 0)) 2) = _ := e1
    have e2' : assignedOn net (assignEffects (subnetHelper (ipv4 10 1 2 0)) (n + 1)) = _ := e2
    have e3' : assignedOn net (assignEffects (subnetHelper (ipv4 10 1 3 0)) n) = _ := e3
    simp only [addressEffects, assignedOn, List.filterMap_append] at hs e1' e2' e3' e4 ⊢
    rw [hs, hs, hs, e1', e2', e3', e4]
    by_cases h : ipv4 10 1 3 0 = net
    · simp [h, List.range'_concat, Nat.add_comm]
    · simp [h]
  simp only [assignedOn, List.filterMap_append] at h1 h3 h4 h5 ⊢
  rw [h1, h3, h4, h5]
  simp

/-- Exit status of `main` for every input: 1 above the limit, 0 from three
extra CSMA nodes on, and a fault below three. -/
theorem main_exit_status (u : Nat) (argv : Args) :
    (runMain u argv).1 =
      if 200 < argv.nCsma.getD u then some 1
      else if 3 ≤ argv.nCsma.getD u then some 0 else none := by
  by_cases h : 200 < argv.nCsma.getD u
  · rw [runMain_rejected u argv h, if_pos h]
  · rw [runMain_accepted u argv (by omega), if_neg h]

/-- Above the limit `main` prints the limit message and returns 1 before it
creates a node, a device, an address or an application and before any
scheduler call; and 1 is returned in no other case. -/
theorem main_rejects_above_limit (u : Nat) (argv : Args) :
    ((runMain u argv).1 = some 1 ↔ 200 < argv.nCsma.getD u) ∧
    (200 < argv.nCsma.getD u →
      (runMain u argv).2.trace = [Effect.cout "nCsma should be 200 or less"] ∧
      (runMain u argv).2.nodeCount = 0 ∧
      ∀ e ∈ (runMain u argv).2.trace, e.builds = false) := by
  refine ⟨?_, ?_⟩
  · rw [main_exit_status]
    by_cases h : 200 < argv.nCsma.getD u
    · simp [h]
    · by_cases h3 : 3 ≤ argv.nCsma.getD u <;> simp [h, h3]
  · intro h
    rw [runMain_rejected u argv h]
    simp [Effect.builds]

/-- With three to two hundred extra CSMA nodes `main` calls the scheduler three
times: `Stop(100 s)`, `Run`, `Destroy`, in this order. -/
theorem simulator_lifecycle_order (u : Nat) (argv : Args) (h3 : 3 ≤ argv.nCsma.getD u)
    (hn : argv.nCsma.getD u ≤ 200) :
    (runMain u argv).1 = some 0 ∧
    simulatorCalls (runMain u argv).2.trace = [SimCall.stop 100, SimCall.run, SimCall.destroy] := by
  refine ⟨?_, ?_⟩
  · rw [main_exit_status, if_neg (by omega), if_pos h3]
  · rw [simulatorCalls_runMain u argv hn, if_pos h3]

/-- With `--nCsma=3` `main` builds the topology of its header comment: nodes
n0..n7, CSMA devices on n1..n4, Wifi stations n5..n7 and the access point n0. -/
theorem documented_topology_when_three_is_given (u : Nat) (v t : Option Bool) :
    (runMain u ⟨some 3, v, t⟩).1 = some 0 ∧
    (runMain u ⟨some 3, v, t⟩).2.nodeCount = 8 ∧
    Effect.installDevices DeviceKind.csma [1, 2, 3, 4] ∈ (runMain u ⟨some 3, v, t⟩).2.trace ∧
    Effect.installDevices DeviceKind.wifiSta [5, 6, 7] ∈ (runMain u ⟨some 3, v, t⟩).2.trace ∧
    Effect.installDevices DeviceKind.wifiAp [0] ∈ (runMain u ⟨some 3, v, t⟩).2.trace := by
  rw [runMain_accepted u ⟨some 3, v, t⟩ (by simp)]
  simp [buildEffects, csmaNodesOf, staNodesOf, List.range'_succ]

/-! ### The claims about the script -/

/-- C1: for every accepted `nCsma = n` (`n ≤ 200`) the pairing loop of `main`
runs its iterations for `k = n, n-1, ..., 1` in this order; at the head of the
iteration with value `k` both counters hold `k` (`nWifi == nCsma`), and the
iteration installs the echo server on `csmaNodes` index `k`, points the client
at `csmaInterfaces` address index `k` on port 9 and installs the client on
`wifiStaNodes` index `k - 1`; the loop is left with both counters at 0.  So the
(server, address, client) index triples are `(k, k, k-1)` for `k = n` down to 1. -/
theorem pairing_loop_shared_count (u : Nat) (argv : Args) (hn : argv.nCsma.getD u ≤ 200) :
    pairCalls (runMain u argv).2.trace =
      (List.range' 1 (argv.nCsma.getD u)).reverse.flatMap
        (fun k => [PairCall.loopTest k k, PairCall.server k, PairCall.remote k 9,
                   PairCall.client (k - 1)]) ++ [PairCall.loopTest 0 0] ∧
    pairTriples (pairCalls (runMain u argv).2.trace) =
      (List.range' 1 (argv.nCsma.getD u)).reverse.map (fun k => (k, k, k - 1)) := by
  have h := pairCalls_runMain u argv hn
  refine ⟨h, ?_⟩
  rw [h, pairTriples_iterations]

/-- C1 at `--nCsma=3`. -/
theorem pairing_loop_shared_count_witness :
    (Args.mk (some 3) none none).nCsma.getD 0 ≤ 200 ∧
    (pairCalls (runMain 0 (Args.mk (some 3) none none)).2.trace =
      (List.range' 1 ((Args.mk (some 3) none none).nCsma.getD 0)).reverse.flatMap
        (fun k => [PairCall.loopTest k k, PairCall.server k, PairCall.remote k 9,
                   PairCall.client (k - 1)]) ++ [PairCall.loopTest 0 0] ∧
    pairTriples (pairCalls (runMain 0 (Args.mk (some 3) none none)).2.trace) =
      (List.range' 1 ((Args.mk (some 3) none none).nCsma.getD 0)).reverse.map
        (fun k => (k, k, k - 1))) :=
  ⟨by decide, pairing_loop_shared_count 0 (Args.mk (some 3) none none) (by decide)⟩

/-- C2 at the failing input `--nCsma=0`: the value passes the `nCsma > 200`
check, yet `main` does not return 0: it leaves defined behaviour at
`csmaNodes.Get(1)` (line 198), right after opening the animation file, on a
container that holds one node only. -/
theorem main_faults_when_nCsma_is_zero :
    (runMain 0 (Args.mk (some 0) none none)).1 = none ∧
    (runMain 0 (Args.mk (some 0) none none)).2.trace.getLast? =
      some (Effect.animationInterface "third.xml") ∧
    Effect.installDevices DeviceKind.csma [1] ∈ (runMain 0 (Args.mk (some 0) none none)).2.trace := by
  rw [runMain_accepted 0 (Args.mk (some 0) none none) (by decide)]
  have hfin : finishEffects true 0 =
      [Effect.populateRoutingTables, Effect.simulatorStop 100, Effect.enablePcap "third_p2p",
       Effect.enablePcap "third_wifi", Effect.enablePcap "third_csma"] ++
      [Effect.animationInterface "third.xml"] := by
    simp [finishEffects]
  refine ⟨by decide, ?_, ?_⟩
  · show (_ ++ finishEffects true 0).getLast? = _
    rw [hfin, ← List.append_assoc, List.getLast?_concat]
  · simp [buildEffects, csmaNodesOf]

/-- C3 at the failing input `--nCsma=0`: `Simulator::Stop` is the only
scheduler call `main` makes; `Run` and `Destroy` are never reached. -/
theorem lifecycle_cut_short_when_nCsma_is_zero :
    (runMain 0 (Args.mk (some 0) none none)).1 = none ∧
    simulatorCalls (runMain 0 (Args.mk (some 0) none none)).2.trace = [SimCall.stop 100] := by
  refine ⟨?_, ?_⟩
  · rw [main_exit_status]
    decide
  · rw [simulatorCalls_runMain 0 (Args.mk (some 0) none none) (by decide)]
    decide

/-- C4: for every `nCsma ≤ 200` the addresses `main` assigns fit their /24
subnets, whose helper hands out host numbers 1..254: 10.1.1.1 and 10.1.1.2 on
the point-to-point link, 10.1.2.1 .. 10.1.2.(nCsma+1) on the CSMA LAN and
10.1.3.1 .. 10.1.3.(nCsma+1) on the Wifi network (stations, then the access
point), that is 2, `nCsma + 1` and `nWifi + 1 = nCsma + 1` addresses, each
count at most 201. -/
theorem address_space_suffices (u : Nat) (argv : Args) (hn : argv.nCsma.getD u ≤ 200) :
    assignedOn (ipv4 10 1 1 0) (runMain u argv).2.trace = (List.range' 1 2).map (ipv4 10 1 1) ∧
    assignedOn (ipv4 10 1 2 0) (runMain u argv).2.trace =
      (List.range' 1 (argv.nCsma.getD u + 1)).map (ipv4 10 1 2) ∧
    assignedOn (ipv4 10 1 3 0) (runMain u argv).2.trace =
      (List.range' 1 (argv.nCsma.getD u + 1)).map (ipv4 10 1 3) ∧
    (assignedOn (ipv4 10 1 1 0) (runMain u argv).2.trace).length = 2 ∧
    (assignedOn (ipv4 10 1 2 0) (runMain u argv).2.trace).length = argv.nCsma.getD u + 1 ∧
    (assignedOn (ipv4 10 1 3 0) (runMain u argv).2.trace).length = argv.nCsma.getD u + 1 ∧
    argv.nCsma.getD u + 1 ≤ 201 ∧
    (∀ net w, (Ipv4AddressHelper.SetBase net (ipv4 255 255 255 0) w).1.map
      (fun h => h.max) = some 254) := by
  have h1 := assignedOn_runMain u argv hn (ipv4 10 1 1 0)
  have h2 := assignedOn_runMain u argv hn (ipv4 10 1 2 0)
  have h3 := assignedOn_runMain u argv hn (ipv4 10 1 3 0)
  have d12 : ipv4 10 1 1 0 ≠ ipv4 10 1 2 0 := by decide
  have d13 : ipv4 10 1 1 0 ≠ ipv4 10 1 3 0 := by decide
  have d23 : ipv4 10 1 2 0 ≠ ipv4 10 1 3 0 := by decide
  simp only [if_true, if_neg d12, if_neg d13, if_neg d23, if_neg d12.symm, if_neg d13.symm,
    if_neg d23.symm, List.append_nil, List.nil_append] at h1 h2 h3
  refine ⟨h1, h2, h3, ?_, ?_, ?_, by omega, ?_⟩
  · rw [h1]; simp
  · rw [h2]; simp
  · rw [h3]; simp
  · intro net w
    rw [Ipv4AddressHelper.SetBase_slash24]
    rfl

/-- C4 at `--nCsma=200`, the largest accepted value. -/
theorem address_space_suffices_witness :
    (Args.mk (some 200) none none).nCsma.getD 0 ≤ 200 ∧
    (assignedOn (ipv4 10 1 2 0) (runMain 0 (Args.mk (some 200) none none)).2.trace).length =
      201 :=
  ⟨by decide, (address_space_suffices 0 (Args.mk (some 200) none none) (by decide)).2.2.2.2.1⟩

/-- C5 at the failing input, `main` run without an `nCsma` argument: `nCsma` is
read uninitialised.  When it happens to hold 7 the script builds 16 nodes with
7 extra CSMA nodes and 7 stations, and when it holds 201 the script prints the
limit message and returns 1 without building anything; the documented default
of 3 + 3 nodes is not what the code sets. -/
theorem default_topology_not_built :
    (runMain 7 (Args.mk none none none)).1 = some 0 ∧
    (runMain 7 (Args.mk none none none)).2.nodeCount = 16 ∧
    Effect.createNodes 2 7 ∈ (runMain 7 (Args.mk none none none)).2.trace ∧
    Effect.createNodes 9 7 ∈ (runMain 7 (Args.mk none none none)).2.trace ∧
    runMain 201 (Args.mk none none none) =
      (some 1, { nodeCount := 0, trace := [Effect.cout "nCsma should be 200 or less"] }) := by
  refine ⟨?_, ?_, ?_, ?_, runMain_rejected 201 (Args.mk none none none) (by decide)⟩
  · rw [main_exit_status]
    decide
  · rw [runMain_accepted 7 (Args.mk none none none) (by decide)]
    rfl
  · rw [runMain_accepted 7 (Args.mk none none none) (by decide)]
    simp [buildEffects]
  · rw [runMain_accepted 7 (Args.mk none none none) (by decide)]
    simp [buildEffects]

/-! ## Proofs, part II: the scheduler -/

/-! ### The queue order -/

theorem Event.before_iff {P : Type} (a b : Event P) : a.before b = true ↔ Event.lt a b := by
  simp [Event.before, Event.lt]

theorem Event.lt_trans {P : Type} {a b c : Event P} (h1 : Event.lt a b) (h2 : Event.lt b c) :
    Event.lt a c := by
  unfold Event.lt at *
  omega

theorem Event.lt_of_not_lt {P : Type} {a b : Event P} (h : ¬ Event.lt a b)
    (hne : b.sequence ≠ a.sequence) : Event.lt b a := by
  unfold Event.lt at *
  omega

theorem EventQueue.mem_insert {P : Type} (e x : Event P) (q : List (Event P)) :
    x ∈ EventQueue.insert e q ↔ x = e ∨ x ∈ q := by
  induction q with
  | nil => simp [EventQueue.insert]
  | cons y q ih =>
    unfold EventQueue.insert
    split
    · simp
    · simp only [List.mem_cons, ih]
      tauto

theorem EventQueue.insert_pairwise {P : Type} (e : Event P) (q : List (Event P))
    (hq : q.Pairwise Event.lt) (hne : ∀ x ∈ q, x.sequence ≠ e.sequence) :
    (EventQueue.insert e q).Pairwise Event.lt := by
  induction q with
  | nil => simp [EventQueue.insert]
  | cons y q ih =>
    have hy := List.pairwise_cons.mp hq
    unfold EventQueue.insert
    split
    next hb =>
      have hey : Event.lt e y := (Event.before_iff e y).mp hb
      refine List.pairwise_cons.mpr ⟨?_, hq⟩
      intro z hz
      rcases List.mem_cons.mp hz with rfl | hz
      · exact hey
      · exact Event.lt_trans hey (hy.1 z hz)
    next hb =>
      have hey : ¬ Event.lt e y := fun h => hb ((Event.before_iff e y).mpr h)
      refine List.pairwise_cons.mpr ⟨?_, ih hy.2 (fun x hx => hne x (List.mem_cons_of_mem _ hx))⟩
      intro z hz
      rcases (EventQueue.mem_insert e z q).mp hz with rfl | hz
      · exact Event.lt_of_not_lt hey (hne y (List.mem_cons_self _ _))
      · exact hy.1 z hz

theorem Ordered.insert {P : Type} {clock issued : Nat} {queue : List (Event P)}
    {invoked : List (Nat × Event P)} (h : Ordered clock issued queue invoked)
    (time : Nat) (callback : P) (ht : clock ≤ time) :
    Ordered clock (issued + 1)
      (EventQueue.insert { id := issued, time := time, callback := callback,
                           sequence := issued, cancelled := false } queue) invoked := by
  constructor
  · apply EventQueue.insert_pairwise _ _ h.queue_sorted
    intro x hx
    have := h.queue_sequence x hx
    simp only
    omega
  · intro e he
    rcases (EventQueue.mem_insert _ _ _).mp he with rfl | he
    · simp
    · have := h.queue_sequence e he
      omega
  · intro e he
    rcases (EventQueue.mem_insert _ _ _).mp he with rfl | he
    · exact ht
    · exact h.queue_time e he
  · exact h.invoked_sorted
  · intro x hx
    have := h.invoked_clock x hx
    omega
  · intro x hx e he
    rcases (EventQueue.mem_insert _ _ _).mp he with rfl | he
    · have := h.invoked_clock x hx
      unfold Event.lt
      simp only
      omega
    · exact h.invoked_before x hx e he

theorem Ordered.remove {P : Type} {clock issued : Nat} {queue : List (Event P)}
    {invoked : List (Nat × Event P)} (h : Ordered clock issued queue invoked)
    (handle : Nat) :
    Ordered clock issued (EventQueue.remove handle queue).2 invoked := by
  have key : ∀ e : Event P,
      (if e.id = handle then { e with cancelled := true } else e).time = e.time ∧
      (if e.id = handle then { e with cancelled := true } else e).sequence = e.sequence := by
    intro e
    split <;> simp
  have hmem : ∀ e ∈ (EventQueue.remove handle queue).2,
      ∃ e0 ∈ queue, e.time = e0.time ∧ e.sequence = e0.sequence := by
    intro e he
    simp only [EventQueue.remove, List.mem_map] at he
    obtain ⟨e0, h0, rfl⟩ := he
    exact ⟨e0, h0, key e0⟩
  constructor
  · simp only [EventQueue.remove]
    rw [List.pairwise_map]
    refine h.queue_sorted.imp ?_
    intro a b hab
    have ka := key a
    have kb := key b
    unfold Event.lt at *
    omega
  · intro e he
    obtain ⟨e0, h0, _, hs⟩ := hmem e he
    have := h.queue_sequence e0 h0
    omega
  · intro e he
    obtain ⟨e0, h0, ht, _⟩ := hmem e he
    have := h.queue_time e0 h0
    omega
  · exact h.invoked_sorted
  · exact h.invoked_clock
  · intro x hx e he
    obtain ⟨e0, h0, ht, hs⟩ := hmem e he
    have := h.invoked_before x hx e0 h0
    unfold Event.lt at *
    omega

theorem Engine.perform_frame {P : Type} (s : Engine P) (r : Request P) :
    (s.perform r).phase = s.phase ∧ (s.perform r).clock = s.clock ∧
    (s.perform r).invoked = s.invoked := by
  cases r with
  | schedule delay callback =>
    by_cases hd : s.phase = Phase.destroyed
    · simp [Engine.perform, Engine.schedule, hd]
    · by_cases hneg : delay < 0 <;> simp [Engine.perform, Engine.schedule, hd, hneg]
  | scheduleAt time callback =>
    by_cases hd : s.phase = Phase.destroyed
    · simp [Engine.perform, Engine.scheduleAt, hd]
    · by_cases hneg : time < (s.clock : Int) <;>
        simp [Engine.perform, Engine.scheduleAt, hd, hneg]
  | cancel handle => simp [Engine.perform, Engine.cancel]
  | stopAt t =>
    simp only [Engine.perform, Engine.stopAt]
    split <;> simp
  | stopNow =>
    simp only [Engine.perform, Engine.stopNow]
    split <;> simp

theorem Engine.runLoop_of_not_running {P : Type} (handler : P → Nat → List (Request P))
    (fuel : Nat) (s : Engine P) (h : s.phase ≠ Phase.running) :
    Engine.runLoop handler fuel s = s := by
  cases fuel with
  | zero => rfl
  | succ fuel =>
    unfold Engine.runLoop
    rw [if_neg h]

theorem Engine.runLoop_plain_stops {P : Type} (fuel : Nat) :
    ∀ (s : Engine P), s.phase = Phase.running → s.queue.length < fuel →
      (Engine.runLoop plain fuel s).phase.stopped = true := by
  induction fuel with
  | zero => intro s _ h; omega
  | succ fuel ih =>
    intro s hp hlen
    unfold Engine.runLoop
    rw [if_pos hp]
    unfold Engine.turn
    split
    · rw [Engine.runLoop_of_not_running _ _ _ (by simp)]
      rfl
    · cases hq : s.queue with
      | nil =>
        simp only [EventQueue.popMin]
        rw [Engine.runLoop_of_not_running _ _ _ (by simp)]
        rfl
      | cons e q =>
        rw [hq] at hlen
        simp only [List.length_cons] at hlen
        simp only [EventQueue.popMin, plain, Engine.performAll, List.foldl_nil]
        cases hdl : s.deadline with
        | none =>
          simp only
          split
          · exact ih _ hp (by simp only; omega)
          · exact ih _ hp (by simp only; omega)
        | some d =>
          simp only
          split
          · rw [Engine.runLoop_of_not_running _ _ _ (by simp)]
            rfl
          · split
            · exact ih _ hp (by simp only; omega)
            · exact ih _ hp (by simp only; omega)

theorem Engine.run_plain_stops {P : Type} (s : Engine P) (hp : s.phase = Phase.idle) :
    (s.run plain (s.queue.length + 1)).phase.stopped = true := by
  unfold Engine.run
  rw [if_pos hp]
  exact Engine.runLoop_plain_stops _ _ rfl (by simp)

/-- The scheduler passes Idle, Stopped and Destroyed in this order when
`stopAt`, `run` and `destroy` are called on an idle scheduler whose callbacks
do not call back into it. -/
theorem Engine.lifecycle {P : Type} (s : Engine P) (T : Nat) (hp : s.phase = Phase.idle) :
    (s.stopAt T).phase = Phase.idle ∧
    (s.stopAt T).deadline ≠ none ∧
    ((s.stopAt T).run plain ((s.stopAt T).queue.length + 1)).phase.stopped = true ∧
    (((s.stopAt T).run plain ((s.stopAt T).queue.length + 1)).destroy).phase =
      Phase.destroyed := by
  have h1 : (s.stopAt T).phase = Phase.idle := by
    have := (Engine.perform_frame s (Request.stopAt T)).1
    simpa [Engine.perform, hp] using this
  refine ⟨h1, ?_, Engine.run_plain_stops _ h1, rfl⟩
  simp [Engine.stopAt, hp, Phase.stopped]

end Mythird
